import Mathlib

/-!
Verification of the boot-partition discovery protocol of `rune`
(`src/main.rs`, function `locate_boot_partition`).

The function under study is, verbatim from the source:

    fn locate_boot_partition(disk: PathBuf) -> Result<partition::Partition,Box<Error>> {
        let partitions = partition::read_partitions(disk.clone())?;
        for (_, partition) in partitions.iter().enumerate() {
            let sector_size = 512;
            if partition.p_type != 12 {
                // Ignore non-fat partitions
                continue;
            }
            let image = fat::Image::from_file_offset(disk.clone(),
                (partitions[0].p_lba as usize * sector_size), partitions[0].p_size as usize * sector_size)?;
            let volume_id = match image.volume_label() {
                Ok(v) => v,
                Err(_) => continue,
            };
            if !volume_id.to_uppercase().contains("HAIKU") {
                continue;
            }
            return Ok(partition.clone());
        }
        return Err(From::from("no Haiku boot partitions"));
    }

`mbr::partition::read_partitions` and `fatr::fat::Image` are external crates
(the spec's PartitionTableReader and FilesystemVolumeInspector); they perform
I/O against the disk image and are modelled here as an oracle carried by the
`Disk` value.  The control flow of `locate_boot_partition` itself is embedded
faithfully, including the `?` on `from_file_offset` (which propagates an open
failure), the `continue` on a `volume_label()` failure, and the fact that the
inspected byte window is computed from `partitions[0]`, not from the entry
currently being scanned.
-/

namespace Rune

/-- Partition table entry, as in the `mbr` crate's `partition::Partition`,
restricted to the three fields `locate_boot_partition` reads: the type code
(`u8`), the starting sector (`u32`, spec name `start_sector`) and the sector
count (`u32`, spec name `sector_count`).  Machine integers are modelled as
`Nat`; the only arithmetic performed on them is `as usize * 512`, which cannot
overflow a 64-bit `usize` for 32-bit inputs. -/
structure Partition where
  p_type : Nat
  p_lba : Nat
  p_size : Nat
deriving DecidableEq

/-- Modelled from the spec: the result of `fatr`'s `fat::Image::from_file_offset`
(the spec's `VolumeHandle`), abstracted to the one observation the scan makes
of it: `volume_label()`, which either yields the label string (`some`) or
fails (`none`).  The source matches the failure with a wildcard
(`Err(_) => continue`), so the error payload is irrelevant. -/
structure FatImage where
  volumeLabelResult : Option String
deriving DecidableEq

/-- Modelled from the spec: failure modes of `read_partitions`
(spec section 4.1: `IoError`, `FormatError`). -/
inductive ReadPartitionsError where
  | ioError
  | formatError
deriving DecidableEq

/-- Modelled from the spec: failure modes of `from_file_offset`
(spec section 4.2: `IoError`, `VolumeFormatError`). -/
inductive FromFileOffsetError where
  | ioError
  | volumeFormatError
deriving DecidableEq

/-- The errors `locate_boot_partition` can return in its `Result`'s `Box<Error>`:
an error propagated by `?` from `read_partitions`, an error propagated by `?`
from `from_file_offset`, or the final `Err(From::from("no Haiku boot partitions"))`
(the spec's `NotFoundError`; it carries no partial result). -/
inductive LocateError where
  | readPartitionsFailed (e : ReadPartitionsError)
  | fromFileOffsetFailed (e : FromFileOffsetError)
  | noHaikuBootPartitions
deriving DecidableEq

/-- Observable outcome of a call to `locate_boot_partition`: a returned
partition, a returned error, or a Rust panic (which in this function could
only arise from the `partitions[0]` index expression on an empty vector). -/
inductive Outcome where
  | ok (p : Partition)
  | error (e : LocateError)
  | indexOutOfBounds
deriving DecidableEq

/-- Modelled from the spec: the disk image reached through the `disk` path,
seen through the two external collaborators the function calls.
`readPartitionsResult` is what `mbr::partition::read_partitions(disk)` yields;
`fromFileOffset off len` is what `fat::Image::from_file_offset(disk, off, len)`
yields for a given byte window.  Both collaborators are read-only and the
image is unchanged during the scan, so each is a fixed function of its
arguments. -/
structure Disk where
  readPartitionsResult : Except ReadPartitionsError (List Partition)
  fromFileOffset : Nat → Nat → Except FromFileOffsetError FatImage

/-- `let sector_size = 512;` from the loop body. -/
def sector_size : Nat := 512

/-- `startsWith pat l`: the character list `l` starts with `pat`. -/
def startsWith : List Char → List Char → Bool
  | [], _ => true
  | _ :: _, [] => false
  | a :: s, b :: t => a == b && startsWith s t

/-- `hasSubstring pat l`: `pat` occurs contiguously inside `l`. -/
def hasSubstring : List Char → List Char → Bool
  | pat, [] => pat.isEmpty
  | pat, c :: t => startsWith pat (c :: t) || hasSubstring pat t

/-- Rust's `str::contains` with a string pattern: substring containment. -/
def containsSubstring (s pat : String) : Bool :=
  hasSubstring pat.data s.data

/-- Rust's `str::to_uppercase`, restricted to ASCII (FAT volume labels are
ASCII); on ASCII it agrees with Unicode uppercasing, mapping `a`-`z` to
`A`-`Z` and leaving every other character unchanged. -/
def toUppercase (s : String) : String :=
  String.mk (s.data.map Char.toUpper)

/-- The label test of the loop body:
`volume_id.to_uppercase().contains("HAIKU")`. -/
def labelMatches (volume_id : String) : Bool :=
  containsSubstring (toUppercase volume_id) "HAIKU"

/-- The `for (_, partition) in partitions.iter().enumerate()` loop of
`locate_boot_partition`.  `fofs` is the `from_file_offset` oracle of the disk,
`partitions` the vector the loop indexes with `partitions[0]`, and the third
argument the entries still to be visited (initially `partitions` itself).
Each branch mirrors one statement of the loop body:
  * `partition.p_type != 12` → `continue`;
  * `partitions[0]` out of bounds → Rust panic;
  * `from_file_offset(...)?` → an `Err` propagates out of the function;
  * `volume_label()` `Err(_)` → `continue`;
  * label lacking `"HAIKU"` (after uppercasing) → `continue`;
  * otherwise `return Ok(partition.clone())`;
and the fall-through after the loop is `Err("no Haiku boot partitions")`. -/
def scanLoop (fofs : Nat → Nat → Except FromFileOffsetError FatImage)
    (partitions : List Partition) : List Partition → Outcome
  | [] => .error .noHaikuBootPartitions
  | partition :: rest =>
    if partition.p_type ≠ 12 then
      scanLoop fofs partitions rest
    else
      match partitions[0]? with
      | none => .indexOutOfBounds
      | some p0 =>
        match fofs (p0.p_lba * sector_size) (p0.p_size * sector_size) with
        | .error e => .error (.fromFileOffsetFailed e)
        | .ok image =>
          match image.volumeLabelResult with
          | none => scanLoop fofs partitions rest
          | some volume_id =>
            if labelMatches volume_id then .ok partition
            else scanLoop fofs partitions rest

/-- `locate_boot_partition(disk)`: read the partition table (propagating a
failure via `?`), then run the scan loop over the entries in table order. -/
def locateBootPartition (disk : Disk) : Outcome :=
  match disk.readPartitionsResult with
  | .error e => .error (.readPartitionsFailed e)
  | .ok partitions => scanLoop disk.fromFileOffset partitions partitions

/-- Instrumented scan loop: identical control flow to `scanLoop`, but also
records, in order, every byte window `(offset, length)` handed to
`from_file_offset`. -/
def scanLoopTrace (fofs : Nat → Nat → Except FromFileOffsetError FatImage)
    (partitions : List Partition) : List Partition → Outcome × List (Nat × Nat)
  | [] => (.error .noHaikuBootPartitions, [])
  | partition :: rest =>
    if partition.p_type ≠ 12 then
      scanLoopTrace fofs partitions rest
    else
      match partitions[0]? with
      | none => (.indexOutOfBounds, [])
      | some p0 =>
        let w := (p0.p_lba * sector_size, p0.p_size * sector_size)
        match fofs w.1 w.2 with
        | .error e => (.error (.fromFileOffsetFailed e), [w])
        | .ok image =>
          match image.volumeLabelResult with
          | none =>
            let r := scanLoopTrace fofs partitions rest
            (r.1, w :: r.2)
          | some volume_id =>
            if labelMatches volume_id then (.ok partition, [w])
            else
              let r := scanLoopTrace fofs partitions rest
              (r.1, w :: r.2)

/-- `locate_boot_partition` with the instrumented loop. -/
def locateBootPartitionTrace (disk : Disk) : Outcome × List (Nat × Nat) :=
  match disk.readPartitionsResult with
  | .error e => (.error (.readPartitionsFailed e), [])
  | .ok partitions => scanLoopTrace disk.fromFileOffset partitions partitions

/-- Reference form of the scan: the same outcome computed from the sublist of
FAT-typed entries (`p_type = 12`) alone, querying the oracle at partition
index 0's byte window for each of them.  `scanLoop_eq_scanSpec` below proves
`scanLoop` equal to it. -/
def scanSpec (fofs : Nat → Nat → Except FromFileOffsetError FatImage)
    (p0? : Option Partition) : List Partition → Outcome
  | [] => .error .noHaikuBootPartitions
  | e :: es =>
    match p0? with
    | none => .indexOutOfBounds
    | some p0 =>
      match fofs (p0.p_lba * sector_size) (p0.p_size * sector_size) with
      | .error er => .error (.fromFileOffsetFailed er)
      | .ok image =>
        match image.volumeLabelResult with
        | none => scanSpec fofs (some p0) es
        | some volume_id =>
          if labelMatches volume_id then .ok e
          else scanSpec fofs (some p0) es

/-! ### Concrete fixtures

The entries and oracles below realize the concrete scenarios of the spec's
section 8 and the tables needed to exercise the scan.  `bootEntry` is the
spec's concrete scenario entry `{type=12, start=2048, size=131072}`; its byte
window is `(2048*512, 131072*512) = (1048576, 67108864)`. -/

def bootEntry : Partition := ⟨12, 2048, 131072⟩

/-- A FAT-typed entry whose region is at sectors `[100, 150)`; byte window
`(51200, 25600)`. -/
def badFatEntry : Partition := ⟨12, 100, 50⟩

/-- A Linux-typed (`0x83 = 131`) entry at sectors `[4, 12)`; byte window
`(2048, 4096)`. -/
def linuxEntry : Partition := ⟨131, 4, 8⟩

/-- A swap-typed (`0x82 = 130`) entry at sectors `[9, 25)`; byte window
`(4608, 8192)`. -/
def swapEntry : Partition := ⟨130, 9, 16⟩

/-- A further non-FAT entry (type `0x83`) used as a swappable filler. -/
def otherEntryA : Partition := ⟨131, 20, 4⟩

/-- A further non-FAT entry (type `0x82`) used as a swappable filler. -/
def otherEntryB : Partition := ⟨130, 30, 4⟩

/-- Disk for the spec's concrete scenario: one FAT partition at index 0 whose
filesystem carries the padded label `"HAIKU "`. -/
def goodDisk : Disk :=
  { readPartitionsResult := .ok [bootEntry]
    fromFileOffset := fun off len =>
      if off = 1048576 ∧ len = 67108864 then .ok ⟨some "HAIKU "⟩
      else .error .ioError }

/-- One FAT partition whose label is the marker in mixed case. -/
def mixedCaseDisk : Disk :=
  { readPartitionsResult := .ok [bootEntry]
    fromFileOffset := fun off len =>
      if off = 1048576 ∧ len = 67108864 then .ok ⟨some "hAiKu"⟩
      else .error .ioError }

/-- One FAT partition whose label contains the marker inside other text. -/
def substringDisk : Disk :=
  { readPartitionsResult := .ok [bootEntry]
    fromFileOffset := fun off len =>
      if off = 1048576 ∧ len = 67108864 then .ok ⟨some "SD HAIKU BOOT"⟩
      else .error .ioError }

/-- One FAT partition whose label lacks the marker. -/
def noMarkerDisk : Disk :=
  { readPartitionsResult := .ok [bootEntry]
    fromFileOffset := fun off len =>
      if off = 1048576 ∧ len = 67108864 then .ok ⟨some "UBUNTU"⟩
      else .error .ioError }

/-- A table whose only entry is not FAT-typed. -/
def nonFatDisk : Disk :=
  { readPartitionsResult := .ok [linuxEntry]
    fromFileOffset := fun _ _ => .error .ioError }

/-- A readable table with zero entries. -/
def emptyTableDisk : Disk :=
  { readPartitionsResult := .ok []
    fromFileOffset := fun _ _ => .error .ioError }

/-- A disk whose partition table itself fails to read. -/
def badTableDisk : Disk :=
  { readPartitionsResult := .error .formatError
    fromFileOffset := fun _ _ => .error .ioError }

/-- The boundary scenario of the spec's section 8:
`[type=12 (bad FAT header), type=12 (valid FAT header, label "HAIKU BOOT")]`,
with the bad header reported by `volume_label()` (the recoverable spot):
entry 0's window opens but yields no label, entry 1's window carries the
label `"HAIKU BOOT"`. -/
def boundaryLabelFailDisk : Disk :=
  { readPartitionsResult := .ok [badFatEntry, bootEntry]
    fromFileOffset := fun off len =>
      if off = 51200 ∧ len = 25600 then .ok ⟨none⟩
      else if off = 1048576 ∧ len = 67108864 then .ok ⟨some "HAIKU BOOT"⟩
      else .error .ioError }

/-- The same boundary scenario with the bad header instead reported by
`from_file_offset` itself: entry 0's window fails to open. -/
def boundaryOpenFailDisk : Disk :=
  { readPartitionsResult := .ok [badFatEntry, bootEntry]
    fromFileOffset := fun off len =>
      if off = 51200 ∧ len = 25600 then .error .volumeFormatError
      else if off = 1048576 ∧ len = 67108864 then .ok ⟨some "HAIKU BOOT"⟩
      else .error .ioError }

/-- Oracle for the tables `[linuxEntry, bootEntry]`: the Linux partition's
region holds a volume labelled `"LINUX"`, the FAT partition's own region a
volume labelled `"HAIKU"`. -/
def ownLabelOracle : Nat → Nat → Except FromFileOffsetError FatImage :=
  fun off len =>
    if off = 2048 ∧ len = 4096 then .ok ⟨some "LINUX"⟩
    else if off = 1048576 ∧ len = 67108864 then .ok ⟨some "HAIKU"⟩
    else .error .ioError

/-- Table `[linuxEntry, bootEntry]` over `ownLabelOracle`: the unique FAT
entry's own filesystem is labelled `"HAIKU"`, but index 0's region is the
`"LINUX"` volume. -/
def ownLabelDisk : Disk :=
  { readPartitionsResult := .ok [linuxEntry, bootEntry]
    fromFileOffset := ownLabelOracle }

/-- Oracle with the labels the other way around: index 0's (Linux) region
holds the `"HAIKU"` volume, while the FAT entry's own region is `"LINUX"`. -/
def crossLabelOracle : Nat → Nat → Except FromFileOffsetError FatImage :=
  fun off len =>
    if off = 2048 ∧ len = 4096 then .ok ⟨some "HAIKU"⟩
    else if off = 1048576 ∧ len = 67108864 then .ok ⟨some "LINUX"⟩
    else .error .ioError

/-- Table `[linuxEntry, bootEntry]` over `crossLabelOracle`. -/
def crossLabelDisk : Disk :=
  { readPartitionsResult := .ok [linuxEntry, bootEntry]
    fromFileOffset := crossLabelOracle }

/-- Oracle for the swap scenario: `linuxEntry`'s region holds a `"HAIKU"`
volume, `swapEntry`'s region a `"NOPE"` volume. -/
def swapOracle : Nat → Nat → Except FromFileOffsetError FatImage :=
  fun off len =>
    if off = 2048 ∧ len = 4096 then .ok ⟨some "HAIKU"⟩
    else if off = 4608 ∧ len = 8192 then .ok ⟨some "NOPE"⟩
    else .error .ioError

/-- Table `[linuxEntry, bootEntry, swapEntry]` over `swapOracle`. -/
def swapDiskA : Disk :=
  { readPartitionsResult := .ok [linuxEntry, bootEntry, swapEntry]
    fromFileOffset := swapOracle }

/-- The same disk with the two non-matching entries (`linuxEntry`,
`swapEntry`) swapped: table `[swapEntry, bootEntry, linuxEntry]`. -/
def swapDiskB : Disk :=
  { readPartitionsResult := .ok [swapEntry, bootEntry, linuxEntry]
    fromFileOffset := swapOracle }

example : locateBootPartition goodDisk = .ok bootEntry := by decide
example : locateBootPartition mixedCaseDisk = .ok bootEntry := by decide
example : locateBootPartition noMarkerDisk = .error .noHaikuBootPartitions := by decide
example : locateBootPartition boundaryLabelFailDisk = .error .noHaikuBootPartitions := by decide
example : locateBootPartition boundaryOpenFailDisk
    = .error (.fromFileOffsetFailed .volumeFormatError) := by decide
example : locateBootPartition ownLabelDisk = .error .noHaikuBootPartitions := by decide
example : locateBootPartition crossLabelDisk = .ok bootEntry := by decide
example : locateBootPartition swapDiskA = .ok bootEntry := by decide
example : locateBootPartition swapDiskB = .error .noHaikuBootPartitions := by decide
example : locateBootPartitionTrace goodDisk = (.ok bootEntry, [(1048576, 67108864)]) := by decide

/-! ### Structural lemmas about the scan -/

/-- The scan loop computes the same outcome as the reference form `scanSpec`
run on the FAT-typed entries of the remaining list. -/
lemma scanLoop_eq_scanSpec (fofs : Nat → Nat → Except FromFileOffsetError FatImage)
    (ps : List Partition) (rest : List Partition) :
    scanLoop fofs ps rest
      = scanSpec fofs ps[0]? (rest.filter fun p => p.p_type == 12) := by
  induction rest with
  | nil => rfl
  | cons partition rest ih =>
    by_cases h : partition.p_type = 12
    · cases h0 : ps[0]? with
      | none => simp [scanLoop, scanSpec, List.filter_cons, h, h0]
      | some p0 =>
        cases hq : fofs (p0.p_lba * sector_size) (p0.p_size * sector_size) with
        | error er => simp [scanLoop, scanSpec, List.filter_cons, h, h0, hq]
        | ok image =>
          cases hl : image.volumeLabelResult with
          | none => simp [scanLoop, scanSpec, List.filter_cons, h, h0, hq, hl, ih]
          | some volume_id =>
            by_cases hm : labelMatches volume_id
            · simp [scanLoop, scanSpec, List.filter_cons, h, h0, hq, hl, hm]
            · simp [scanLoop, scanSpec, List.filter_cons, h, h0, hq, hl, hm, ih]
    · simp [scanLoop, List.filter_cons, h, ih]

/-- If the shared query at index 0's window opens but yields no label, the
scan ends in the not-found error, whatever entries remain. -/
lemma scanSpec_label_none (fofs : Nat → Nat → Except FromFileOffsetError FatImage)
    (p0 : Partition) (image : FatImage)
    (hq : fofs (p0.p_lba * sector_size) (p0.p_size * sector_size) = .ok image)
    (hl : image.volumeLabelResult = none) :
    ∀ l, scanSpec fofs (some p0) l = .error .noHaikuBootPartitions := by
  intro l
  induction l with
  | nil => rfl
  | cons e es ih => simp only [scanSpec, hq, hl]; exact ih

/-- If the shared query yields a label lacking the marker, the scan ends in
the not-found error, whatever entries remain. -/
lemma scanSpec_label_nomatch (fofs : Nat → Nat → Except FromFileOffsetError FatImage)
    (p0 : Partition) (image : FatImage) (s : String)
    (hq : fofs (p0.p_lba * sector_size) (p0.p_size * sector_size) = .ok image)
    (hl : image.volumeLabelResult = some s) (hm : labelMatches s = false) :
    ∀ l, scanSpec fofs (some p0) l = .error .noHaikuBootPartitions := by
  intro l
  induction l with
  | nil => rfl
  | cons e es ih => simp only [scanSpec, hq, hl, hm, if_false, Bool.false_eq_true]; exact ih

/-- If the shared query fails to open, the first FAT-typed entry propagates
that error out of the whole scan. -/
lemma scanSpec_open_error (fofs : Nat → Nat → Except FromFileOffsetError FatImage)
    (p0 : Partition) (er : FromFileOffsetError)
    (hq : fofs (p0.p_lba * sector_size) (p0.p_size * sector_size) = .error er) :
    ∀ l, l ≠ [] → scanSpec fofs (some p0) l = .error (.fromFileOffsetFailed er) := by
  intro l hl
  cases l with
  | nil => exact absurd rfl hl
  | cons e es => simp only [scanSpec, hq]

/-- If the shared query yields a label containing the marker, the scan
returns the first remaining FAT-typed entry. -/
lemma scanSpec_match (fofs : Nat → Nat → Except FromFileOffsetError FatImage)
    (p0 : Partition) (image : FatImage) (s : String)
    (hq : fofs (p0.p_lba * sector_size) (p0.p_size * sector_size) = .ok image)
    (hl : image.volumeLabelResult = some s) (hm : labelMatches s = true)
    (e : Partition) (es : List Partition) :
    scanSpec fofs (some p0) (e :: es) = .ok e := by
  simp only [scanSpec, hq, hl, hm, if_true]

/-- Inversion: a successful scan pins down everything — the index-0 entry
exists, its window opened, the label was read, it contains the marker, and
the returned entry is the first FAT-typed entry of the list scanned. -/
lemma scanSpec_ok_inv (fofs : Nat → Nat → Except FromFileOffsetError FatImage)
    (p0? : Option Partition) (l : List Partition) (p : Partition)
    (h : scanSpec fofs p0? l = .ok p) :
    ∃ p0 image s,
      p0? = some p0
      ∧ fofs (p0.p_lba * sector_size) (p0.p_size * sector_size) = .ok image
      ∧ image.volumeLabelResult = some s
      ∧ labelMatches s = true
      ∧ l.head? = some p := by
  cases l with
  | nil => exact absurd h (by simp [scanSpec])
  | cons e es =>
    cases p0? with
    | none => exact absurd h (by simp [scanSpec])
    | some p0 =>
      cases hq : fofs (p0.p_lba * sector_size) (p0.p_size * sector_size) with
      | error er => simp [scanSpec, hq] at h
      | ok image =>
        cases hl : image.volumeLabelResult with
        | none =>
          simp only [scanSpec, hq, hl] at h
          rw [scanSpec_label_none fofs p0 image hq hl es] at h
          exact absurd h (by simp)
        | some s =>
          by_cases hm : labelMatches s
          · simp only [scanSpec, hq, hl, hm, if_true] at h
            refine ⟨p0, image, s, rfl, hq, hl, hm, ?_⟩
            cases h; rfl
          · have hm' : labelMatches s = false := by simpa using hm
            simp only [scanSpec, hq, hl, hm', Bool.false_eq_true, if_false] at h
            rw [scanSpec_label_nomatch fofs p0 image s hq hl hm' es] at h
            exact absurd h (by simp)

/-- Shape of every possible scan outcome: a found partition, a propagated
open error, the not-found error, or — only when there is no index-0 entry —
the out-of-bounds panic. -/
lemma scanSpec_shape (fofs : Nat → Nat → Except FromFileOffsetError FatImage)
    (p0? : Option Partition) (l : List Partition) :
    (∃ p, scanSpec fofs p0? l = .ok p)
    ∨ (∃ er, scanSpec fofs p0? l = .error (.fromFileOffsetFailed er))
    ∨ scanSpec fofs p0? l = .error .noHaikuBootPartitions
    ∨ (scanSpec fofs p0? l = .indexOutOfBounds ∧ p0? = none) := by
  induction l with
  | nil => exact Or.inr (Or.inr (Or.inl rfl))
  | cons e es ih =>
    cases p0? with
    | none => exact Or.inr (Or.inr (Or.inr ⟨rfl, rfl⟩))
    | some p0 =>
      cases hq : fofs (p0.p_lba * sector_size) (p0.p_size * sector_size) with
      | error er => exact Or.inr (Or.inl ⟨er, by simp only [scanSpec, hq]⟩)
      | ok image =>
        cases hl : image.volumeLabelResult with
        | none =>
          exact Or.inr (Or.inr (Or.inl (scanSpec_label_none fofs p0 image hq hl _)))
        | some s =>
          by_cases hm : labelMatches s
          · exact Or.inl ⟨e, scanSpec_match fofs p0 image s hq hl hm e es⟩
          · exact Or.inr (Or.inr (Or.inl
              (scanSpec_label_nomatch fofs p0 image s hq hl (by simpa using hm) _)))

/-- Decomposition of `filter q l = e :: es`: `l` splits at the first element
satisfying `q`, which is `e`. -/
lemma filter_split {α : Type} (q : α → Bool) :
    ∀ {l : List α} {e : α} {es : List α}, l.filter q = e :: es →
      ∃ pre post, l = pre ++ e :: post ∧ (∀ x ∈ pre, q x = false) ∧ q e = true := by
  intro l
  induction l with
  | nil => intro e es h; exact absurd h (by simp)
  | cons a t ih =>
    intro e es h
    cases hq : q a with
    | true =>
      rw [List.filter_cons, if_pos hq] at h
      obtain ⟨rfl, _⟩ := List.cons_eq_cons.mp h
      exact ⟨[], t, rfl, by simp, hq⟩
    | false =>
      rw [List.filter_cons, if_neg (by simp [hq])] at h
      obtain ⟨pre, post, rfl, hpre, he⟩ := ih h
      exact ⟨a :: pre, post, rfl, by
        intro x hx
        rcases List.mem_cons.mp hx with rfl | hx
        · exact hq
        · exact hpre x hx, he⟩

/-- The instrumented loop computes the same outcome as the plain loop. -/
lemma scanLoopTrace_fst (fofs : Nat → Nat → Except FromFileOffsetError FatImage)
    (ps : List Partition) (rest : List Partition) :
    (scanLoopTrace fofs ps rest).1 = scanLoop fofs ps rest := by
  induction rest with
  | nil => rfl
  | cons partition rest ih =>
    by_cases h : partition.p_type = 12
    · cases h0 : ps[0]? with
      | none => simp [scanLoopTrace, scanLoop, h, h0]
      | some p0 =>
        cases hq : fofs (p0.p_lba * sector_size) (p0.p_size * sector_size) with
        | error er => simp [scanLoopTrace, scanLoop, h, h0, hq]
        | ok image =>
          cases hl : image.volumeLabelResult with
          | none => simp [scanLoopTrace, scanLoop, h, h0, hq, hl, ih]
          | some volume_id =>
            by_cases hm : labelMatches volume_id
            · simp [scanLoopTrace, scanLoop, h, h0, hq, hl, hm]
            · simp [scanLoopTrace, scanLoop, h, h0, hq, hl, hm, ih]
    · simp [scanLoopTrace, scanLoop, h, ih]

/-- Every byte window the instrumented loop records is computed from the
index-0 entry's bounds. -/
lemma scanLoopTrace_windows (fofs : Nat → Nat → Except FromFileOffsetError FatImage)
    (ps : List Partition) (rest : List Partition) (w : Nat × Nat)
    (hw : w ∈ (scanLoopTrace fofs ps rest).2) :
    ∃ p0, ps[0]? = some p0 ∧ w = (p0.p_lba * sector_size, p0.p_size * sector_size) := by
  induction rest with
  | nil => exact absurd hw (by simp [scanLoopTrace])
  | cons partition rest ih =>
    by_cases h : partition.p_type = 12
    · cases h0 : ps[0]? with
      | none => simp [scanLoopTrace, h, h0] at hw
      | some p0 =>
        rw [h0] at ih
        cases hq : fofs (p0.p_lba * sector_size) (p0.p_size * sector_size) with
        | error er =>
          simp only [scanLoopTrace, h, h0, hq, ne_eq, not_true_eq_false, if_false,
            List.mem_singleton] at hw
          exact ⟨p0, rfl, hw⟩
        | ok image =>
          cases hl : image.volumeLabelResult with
          | none =>
            simp only [scanLoopTrace, h, h0, hq, hl, ne_eq, not_true_eq_false, if_false,
              List.mem_cons] at hw
            rcases hw with rfl | hw
            · exact ⟨p0, rfl, rfl⟩
            · exact ih hw
          | some volume_id =>
            by_cases hm : labelMatches volume_id
            · simp only [scanLoopTrace, h, h0, hq, hl, hm, ne_eq, not_true_eq_false, if_false,
                if_true, List.mem_singleton] at hw
              exact ⟨p0, rfl, hw⟩
            · simp only [scanLoopTrace, h, h0, hq, hl, hm, ne_eq, not_true_eq_false, if_false,
                Bool.false_eq_true, List.mem_cons] at hw
              rcases hw with rfl | hw
              · exact ⟨p0, rfl, rfl⟩
              · exact ih hw
    · simp only [scanLoopTrace, h, ne_eq, not_false_eq_true, if_true] at hw
      exact ih hw

/-- `locate_boot_partition` on a readable table, in reference form. -/
lemma locate_eq (d : Disk) (ps : List Partition)
    (h : d.readPartitionsResult = .ok ps) :
    locateBootPartition d
      = scanSpec d.fromFileOffset ps[0]? (ps.filter fun p => p.p_type == 12) := by
  simp only [locateBootPartition, h]
  exact scanLoop_eq_scanSpec d.fromFileOffset ps ps

/-- The instrumented `locate_boot_partition` computes the same outcome as the
plain one. -/
lemma locateTrace_fst (d : Disk) :
    (locateBootPartitionTrace d).1 = locateBootPartition d := by
  cases hr : d.readPartitionsResult with
  | error e => simp [locateBootPartitionTrace, locateBootPartition, hr]
  | ok ps =>
    simp only [locateBootPartitionTrace, locateBootPartition, hr]
    exact scanLoopTrace_fst d.fromFileOffset ps ps

/-- The head of a list is a member. -/
lemma head?_mem {α : Type} {l : List α} {a : α} (h : l.head? = some a) : a ∈ l := by
  cases l with
  | nil => simp at h
  | cons x t =>
    have hx : x = a := by simpa using h
    exact hx ▸ List.mem_cons_self x t

/-- A successful scan returns the head of the FAT-typed sublist, which is a
FAT-typed member of the table. -/
lemma locate_ok_mem (d : Disk) (ps : List Partition) (p : Partition)
    (hr : d.readPartitionsResult = .ok ps) (h : locateBootPartition d = .ok p) :
    p ∈ ps.filter (fun q => q.p_type == 12) := by
  rw [locate_eq d ps hr] at h
  obtain ⟨p0, image, s, _, _, _, _, hhead⟩ :=
    scanSpec_ok_inv d.fromFileOffset ps[0]? (ps.filter fun q => q.p_type == 12) p h
  exact head?_mem hhead

/-! ### The claims -/

/-- C1 (counterexample): the claim fails on the code.  For the table
`[entry0 : type 12 with an unparsable filesystem region, entry1 : type 12
with a valid filesystem whose label contains the marker]`,
`locate_boot_partition` does **not** return `entry1`: with the bad header
surfacing at `volume_label()` (`boundaryLabelFailDisk`) the whole scan ends
in the not-found error even though `entry1`'s own filesystem opens with label
`"HAIKU BOOT"`; and with the bad header surfacing at `from_file_offset`
(`boundaryOpenFailDisk`) the open failure is propagated by `?`, aborting the
scan — it is not treated as non-matching. -/
theorem C1_counterexample :
    locateBootPartition boundaryLabelFailDisk = .error .noHaikuBootPartitions
    ∧ locateBootPartition boundaryLabelFailDisk ≠ .ok bootEntry
    ∧ boundaryLabelFailDisk.fromFileOffset (bootEntry.p_lba * sector_size)
        (bootEntry.p_size * sector_size) = .ok ⟨some "HAIKU BOOT"⟩
    ∧ labelMatches "HAIKU BOOT" = true
    ∧ locateBootPartition boundaryOpenFailDisk
        = .error (.fromFileOffsetFailed .volumeFormatError) :=
  ⟨by decide, by decide, by rfl, by decide, by decide⟩

/-- C1 (amended): a failure to extract the volume label is non-fatal — the
candidate is treated as non-matching and the scan continues to the end
(landing on the not-found error, since every candidate reads the same
index-0 window); a failure to open the byte window, by contrast, is fatal:
the `?` propagates it out of the scan as soon as any accepted-type candidate
is reached.  In particular the boundary table of the claim yields the
not-found error (or the propagated open error), never `entry1`. -/
theorem C1_open_fatal_label_nonfatal (d : Disk) (ps : List Partition)
    (p0 : Partition)
    (hr : d.readPartitionsResult = .ok ps) (h0 : ps[0]? = some p0) :
    (∀ image : FatImage,
      d.fromFileOffset (p0.p_lba * sector_size) (p0.p_size * sector_size) = .ok image →
      image.volumeLabelResult = none →
      locateBootPartition d = .error .noHaikuBootPartitions)
    ∧ (∀ (er : FromFileOffsetError) (p : Partition),
      d.fromFileOffset (p0.p_lba * sector_size) (p0.p_size * sector_size) = .error er →
      p ∈ ps → p.p_type = 12 →
      locateBootPartition d = .error (.fromFileOffsetFailed er)) := by
  constructor
  · intro image hq hl
    rw [locate_eq d ps hr, h0]
    exact scanSpec_label_none d.fromFileOffset p0 image hq hl _
  · intro er p hq hp ht
    rw [locate_eq d ps hr, h0]
    refine scanSpec_open_error d.fromFileOffset p0 er hq _ ?_
    intro hf
    have hmem : p ∈ ps.filter (fun q => q.p_type == 12) :=
      List.mem_filter.mpr ⟨hp, by simpa using ht⟩
    rw [hf] at hmem
    simp at hmem

/-- C1 (witness): the amended statement applied to the boundary table with
the label failure at the shared index-0 window. -/
theorem C1_witness :
    locateBootPartition boundaryLabelFailDisk = .error .noHaikuBootPartitions :=
  (C1_open_fatal_label_nonfatal boundaryLabelFailDisk [badFatEntry, bootEntry]
      badFatEntry rfl rfl).1 ⟨none⟩ (by rfl) rfl

/-- C2: every byte window handed to the filesystem inspector during the scan
is computed from partition index 0's bounds — byte offset
`partitions[0].p_lba * 512` and byte length `partitions[0].p_size * 512`,
with the fixed constant `sector_size = 512` — never from the current
entry's own bounds.  The instrumented scan records exactly the inspector
calls and computes the same outcome as `locate_boot_partition`. -/
theorem C2_window_from_partition_zero (d : Disk) :
    (locateBootPartitionTrace d).1 = locateBootPartition d
    ∧ sector_size = 512
    ∧ ∀ w ∈ (locateBootPartitionTrace d).2,
        ∃ ps p0, d.readPartitionsResult = .ok ps ∧ ps[0]? = some p0
          ∧ w = (p0.p_lba * sector_size, p0.p_size * sector_size) := by
  refine ⟨locateTrace_fst d, rfl, ?_⟩
  intro w hw
  cases hr : d.readPartitionsResult with
  | error e =>
    rw [locateBootPartitionTrace] at hw
    rw [hr] at hw
    simp at hw
  | ok ps =>
    rw [locateBootPartitionTrace] at hw
    rw [hr] at hw
    obtain ⟨p0, h0, hww⟩ := scanLoopTrace_windows d.fromFileOffset ps ps w hw
    exact ⟨ps, p0, rfl, h0, hww⟩

/-- C2 (witness): on the spec's concrete scenario the single inspector call
uses window `(2048*512, 131072*512) = (1048576, 67108864)`. -/
theorem C2_witness :
    ((locateBootPartitionTrace goodDisk).1 = locateBootPartition goodDisk)
    ∧ (∃ ps p0, goodDisk.readPartitionsResult = .ok ps ∧ ps[0]? = some p0
        ∧ ((1048576 : Nat), (67108864 : Nat))
            = (p0.p_lba * sector_size, p0.p_size * sector_size)) :=
  ⟨(C2_window_from_partition_zero goodDisk).1,
   (C2_window_from_partition_zero goodDisk).2.2 (1048576, 67108864) (by decide)⟩

/-- C3 (counterexample): the claim fails on the code.  The table
`[linuxEntry (type 131), bootEntry (type 12)]` has exactly one accepted-type
entry, `bootEntry`, and that entry's **own** filesystem volume label is
`"HAIKU"`; yet `locate_boot_partition` returns the not-found error, because
the label it actually reads comes from partition index 0's byte window (the
`"LINUX"` volume). -/
theorem C3_counterexample :
    ownLabelDisk.readPartitionsResult = .ok [linuxEntry, bootEntry]
    ∧ List.filter (fun q => q.p_type == 12) [linuxEntry, bootEntry] = [bootEntry]
    ∧ ownLabelDisk.fromFileOffset (bootEntry.p_lba * sector_size)
        (bootEntry.p_size * sector_size) = .ok ⟨some "HAIKU"⟩
    ∧ labelMatches "HAIKU" = true
    ∧ locateBootPartition ownLabelDisk ≠ .ok bootEntry
    ∧ locateBootPartition ownLabelDisk = .error .noHaikuBootPartitions :=
  ⟨rfl, by decide, by rfl, by decide, by decide, by decide⟩

/-- C3 (amended): for every table containing exactly one entry of the
accepted type, if the volume label read through **partition index 0's** byte
window case-insensitively contains the marker, `locate_boot_partition`
returns that unique entry with its fields unmodified, regardless of its
position in the table.  (The claim's original premise — the entry's own
label — only decides the outcome when the unique entry sits at index 0.) -/
theorem C3_unique_fat_candidate (d : Disk) (ps : List Partition)
    (p0 e : Partition) (image : FatImage) (s : String)
    (hr : d.readPartitionsResult = .ok ps)
    (h0 : ps[0]? = some p0)
    (hf : ps.filter (fun q => q.p_type == 12) = [e])
    (hq : d.fromFileOffset (p0.p_lba * sector_size) (p0.p_size * sector_size) = .ok image)
    (hl : image.volumeLabelResult = some s)
    (hm : labelMatches s = true) :
    locateBootPartition d = .ok e := by
  rw [locate_eq d ps hr, h0, hf]
  exact scanSpec_match d.fromFileOffset p0 image s hq hl hm e []

/-- C3 (witness): the unique FAT entry is at index 1 and is returned, the
marker being visible through index 0's window. -/
theorem C3_witness : locateBootPartition crossLabelDisk = .ok bootEntry :=
  C3_unique_fat_candidate crossLabelDisk [linuxEntry, bootEntry] linuxEntry
    bootEntry ⟨some "HAIKU"⟩ "HAIKU" rfl rfl (by decide) (by rfl) rfl (by decide)

/-- C4 (counterexample): the claim fails on the code.  `crossLabelDisk`'s
scan succeeds with `bootEntry`, whose **own** filesystem volume label is
`"LINUX"` — it does not contain the OS identity substring; the label that
matched was read from partition index 0's byte window. -/
theorem C4_counterexample :
    locateBootPartition crossLabelDisk = .ok bootEntry
    ∧ crossLabelDisk.fromFileOffset (bootEntry.p_lba * sector_size)
        (bootEntry.p_size * sector_size) = .ok ⟨some "LINUX"⟩
    ∧ labelMatches "LINUX" = false :=
  ⟨by decide, by rfl, by decide⟩

/-- C4 (amended): every partition returned by `locate_boot_partition` has
`p_type = 12` (the accepted set), and the volume label decoded from
**partition index 0's** byte window — not necessarily from the returned
partition's own filesystem — case-normalized, contains the marker. -/
theorem C4_result_invariant (d : Disk) (p : Partition)
    (h : locateBootPartition d = .ok p) :
    p.p_type = 12
    ∧ ∃ ps p0 image s,
        d.readPartitionsResult = .ok ps ∧ ps[0]? = some p0
        ∧ d.fromFileOffset (p0.p_lba * sector_size) (p0.p_size * sector_size) = .ok image
        ∧ image.volumeLabelResult = some s
        ∧ labelMatches s = true := by
  cases hr : d.readPartitionsResult with
  | error e => rw [locateBootPartition] at h; rw [hr] at h; simp at h
  | ok ps =>
    have hmem := locate_ok_mem d ps p hr h
    rw [locate_eq d ps hr] at h
    obtain ⟨p0, image, s, h0, hq, hl, hm, _⟩ :=
      scanSpec_ok_inv d.fromFileOffset ps[0]? (ps.filter fun q => q.p_type == 12) p h
    exact ⟨by simpa using List.of_mem_filter hmem, ps, p0, image, s, rfl, h0, hq, hl, hm⟩

/-- C4 (witness): the amended invariant at the spec's concrete scenario. -/
theorem C4_witness :
    bootEntry.p_type = 12
    ∧ ∃ ps p0 image s,
        goodDisk.readPartitionsResult = .ok ps ∧ ps[0]? = some p0
        ∧ goodDisk.fromFileOffset (p0.p_lba * sector_size) (p0.p_size * sector_size)
            = .ok image
        ∧ image.volumeLabelResult = some s
        ∧ labelMatches s = true :=
  C4_result_invariant goodDisk bootEntry (by decide)

/-- C5 (counterexample): the claim fails on the code.  `swapDiskA` and
`swapDiskB` share the same `from_file_offset` oracle and differ only by
swapping the two non-matching entries `linuxEntry` (type `0x83`) and
`swapEntry` (type `0x82`); yet the results differ, because the swap moves
which entry sits at index 0 and the inspected byte window moves with it. -/
theorem C5_counterexample :
    swapDiskA.fromFileOffset = swapOracle
    ∧ swapDiskB.fromFileOffset = swapOracle
    ∧ swapDiskA.readPartitionsResult = .ok [linuxEntry, bootEntry, swapEntry]
    ∧ swapDiskB.readPartitionsResult = .ok [swapEntry, bootEntry, linuxEntry]
    ∧ linuxEntry.p_type ≠ 12 ∧ swapEntry.p_type ≠ 12
    ∧ locateBootPartition swapDiskA = .ok bootEntry
    ∧ locateBootPartition swapDiskB = .error .noHaikuBootPartitions :=
  ⟨rfl, rfl, rfl, rfl, by decide, by decide, by decide, by decide⟩

/-- C5 (amended): the scan is short-circuiting with no scoring — a returned
partition is always the first accepted-type entry in table order — and
swapping two non-matching (non-accepted-type) entries does not change the
result **provided neither occupies index 0**, since the inspected byte
window is computed from index 0's bounds. -/
theorem C5_first_match_and_swap :
    (∀ (d : Disk) (ps : List Partition) (p : Partition),
        d.readPartitionsResult = .ok ps → locateBootPartition d = .ok p →
        ∃ pre post, ps = pre ++ p :: post ∧ ∀ x ∈ pre, x.p_type ≠ 12)
    ∧ (∀ (fofs : Nat → Nat → Except FromFileOffsetError FatImage)
        (p0 u v : Partition) (xs ys zs : List Partition),
        u.p_type ≠ 12 → v.p_type ≠ 12 →
        locateBootPartition ⟨.ok (p0 :: (xs ++ (u :: (ys ++ (v :: zs))))), fofs⟩
          = locateBootPartition ⟨.ok (p0 :: (xs ++ (v :: (ys ++ (u :: zs))))), fofs⟩) := by
  constructor
  · intro d ps p hr h
    have hmem := locate_ok_mem d ps p hr h
    rw [locate_eq d ps hr] at h
    obtain ⟨p0, image, s, h0, hq, hl, hm, hhead⟩ :=
      scanSpec_ok_inv d.fromFileOffset ps[0]? (ps.filter fun q => q.p_type == 12) p h
    cases hf : (ps.filter fun q => q.p_type == 12) with
    | nil => rw [hf] at hhead; simp at hhead
    | cons a t =>
      rw [hf] at hhead
      have ha : a = p := by simpa using hhead
      subst ha
      obtain ⟨pre, post, hsplit, hpre, _⟩ := filter_split _ hf
      exact ⟨pre, post, hsplit, fun x hx => by simpa using hpre x hx⟩
  · intro fofs p0 u v xs ys zs hu hv
    have hu' : (u.p_type == 12) = false := by simpa using hu
    have hv' : (v.p_type == 12) = false := by simpa using hv
    have hfeq : (p0 :: (xs ++ (u :: (ys ++ (v :: zs))))).filter (fun q => q.p_type == 12)
        = (p0 :: (xs ++ (v :: (ys ++ (u :: zs))))).filter (fun q => q.p_type == 12) := by
      simp [List.filter_cons, List.filter_append, hu', hv']
    have e1 := locate_eq ⟨.ok (p0 :: (xs ++ (u :: (ys ++ (v :: zs))))), fofs⟩ _ rfl
    have e2 := locate_eq ⟨.ok (p0 :: (xs ++ (v :: (ys ++ (u :: zs))))), fofs⟩ _ rfl
    rw [e1, e2]
    simp only [List.getElem?_cons_zero]
    rw [hfeq]

/-- C5 (witness): the first-match decomposition on `swapDiskA`, and the
swap-invariance applied to two non-matching entries away from index 0. -/
theorem C5_witness :
    (∃ pre post, [linuxEntry, bootEntry, swapEntry] = pre ++ bootEntry :: post
        ∧ ∀ x ∈ pre, x.p_type ≠ 12)
    ∧ locateBootPartition ⟨.ok [linuxEntry, otherEntryA, bootEntry, otherEntryB], swapOracle⟩
        = locateBootPartition ⟨.ok [linuxEntry, otherEntryB, bootEntry, otherEntryA], swapOracle⟩ :=
  ⟨C5_first_match_and_swap.1 swapDiskA [linuxEntry, bootEntry, swapEntry] bootEntry
      rfl (by decide),
   C5_first_match_and_swap.2 swapOracle linuxEntry otherEntryA otherEntryB
      [] [bootEntry] [] (by decide) (by decide)⟩

/-- C6: the label test is case-insensitive substring containment of the
fixed marker `"HAIKU"`: the padding-trimmed marker in mixed case matches,
the marker inside other text matches, and a label lacking the marker leads
the scan to the not-found error. -/
theorem C6_label_test_semantics :
    labelMatches "hAiKu" = true
    ∧ labelMatches "SD HAIKU BOOT" = true
    ∧ labelMatches "UBUNTU" = false
    ∧ locateBootPartition mixedCaseDisk = .ok bootEntry
    ∧ locateBootPartition substringDisk = .ok bootEntry
    ∧ locateBootPartition noMarkerDisk = .error .noHaikuBootPartitions :=
  ⟨by decide, by decide, by decide, by decide, by decide, by decide⟩

/-- C7: on a readable table with zero entries of the accepted type the scan
returns the not-found error; and more generally, whenever the function
neither returns a partition nor propagates an open error — i.e. the scan
exhausted every entry without a match — the result is exactly the
not-found error (which carries no partial result). -/
theorem C7_not_found (d : Disk) (ps : List Partition)
    (hr : d.readPartitionsResult = .ok ps) :
    ((∀ p ∈ ps, p.p_type ≠ 12) →
      locateBootPartition d = .error .noHaikuBootPartitions)
    ∧ ((∀ p, locateBootPartition d ≠ .ok p) →
      (∀ er, locateBootPartition d ≠ .error (.fromFileOffsetFailed er)) →
      locateBootPartition d = .error .noHaikuBootPartitions) := by
  constructor
  · intro hall
    rw [locate_eq d ps hr]
    have hf : ps.filter (fun p => p.p_type == 12) = [] := by
      rw [List.filter_eq_nil_iff]
      intro a ha
      simpa using hall a ha
    rw [hf]
    rfl
  · intro hok herr
    rcases scanSpec_shape d.fromFileOffset ps[0]? (ps.filter fun p => p.p_type == 12)
      with ⟨q, hq⟩ | ⟨er, he⟩ | hnf | ⟨hx, hnone⟩
    · exact absurd (by rw [locate_eq d ps hr, hq]) (hok q)
    · exact absurd (by rw [locate_eq d ps hr, he]) (herr er)
    · rw [locate_eq d ps hr, hnf]
    · have hnil : ps = [] := by
        cases ps with
        | nil => rfl
        | cons a t => simp at hnone
      subst hnil
      simp [scanSpec] at hx

/-- C7 (witness): a table whose single entry is not of the accepted type. -/
theorem C7_witness :
    locateBootPartition nonFatDisk = .error .noHaikuBootPartitions :=
  (C7_not_found nonFatDisk [linuxEntry] rfl).1 (by decide)

/-- C8: if reading the partition table itself fails, `locate_boot_partition`
propagates that error unchanged, and the instrumented run shows no candidate
was inspected (no `from_file_offset` call is recorded). -/
theorem C8_reader_error_propagates (d : Disk) (er : ReadPartitionsError)
    (h : d.readPartitionsResult = .error er) :
    locateBootPartition d = .error (.readPartitionsFailed er)
    ∧ locateBootPartitionTrace d = (.error (.readPartitionsFailed er), []) := by
  constructor
  · rw [locateBootPartition, h]
  · rw [locateBootPartitionTrace, h]

/-- C8 (witness): a malformed partition table. -/
theorem C8_witness :
    locateBootPartition badTableDisk = .error (.readPartitionsFailed .formatError)
    ∧ locateBootPartitionTrace badTableDisk
      = (.error (.readPartitionsFailed .formatError), []) :=
  C8_reader_error_propagates badTableDisk .formatError rfl

/-- C9: the `partitions[0]` indexing inside the loop is always in bounds —
no run of `locate_boot_partition` panics — and on an empty partition
sequence the function goes straight to the not-found error with no
filesystem open at all. -/
theorem C9_no_index_panic :
    (∀ d : Disk, locateBootPartition d ≠ .indexOutOfBounds)
    ∧ (∀ d : Disk, d.readPartitionsResult = .ok [] →
        locateBootPartitionTrace d = (.error .noHaikuBootPartitions, [])) := by
  constructor
  · intro d h
    cases hr : d.readPartitionsResult with
    | error e => rw [locateBootPartition, hr] at h; simp at h
    | ok ps =>
      rw [locate_eq d ps hr] at h
      rcases scanSpec_shape d.fromFileOffset ps[0]? (ps.filter fun p => p.p_type == 12)
        with ⟨q, hq⟩ | ⟨er, he⟩ | hnf | ⟨hx, hnone⟩
      · rw [hq] at h; simp at h
      · rw [he] at h; simp at h
      · rw [hnf] at h; simp at h
      · have hnil : ps = [] := by
          cases ps with
          | nil => rfl
          | cons a t => simp at hnone
        subst hnil
        simp [scanSpec] at hx
  · intro d h
    rw [locateBootPartitionTrace, h]
    rfl

/-- C9 (witness): the empty table. -/
theorem C9_witness :
    locateBootPartition emptyTableDisk ≠ .indexOutOfBounds
    ∧ locateBootPartitionTrace emptyTableDisk = (.error .noHaikuBootPartitions, []) :=
  ⟨C9_no_index_panic.1 emptyTableDisk, C9_no_index_panic.2 emptyTableDisk rfl⟩

/-- C10: every successful result is one of the entries of the sequence
`read_partitions` produced for this disk (returned as a field-for-field
clone, i.e. equal as a value), and it has type code 12; the function never
fabricates an entry and never returns any other type code. -/
theorem C10_result_from_table (d : Disk) (p : Partition)
    (h : locateBootPartition d = .ok p) :
    ∃ ps, d.readPartitionsResult = .ok ps ∧ p ∈ ps ∧ p.p_type = 12 := by
  cases hr : d.readPartitionsResult with
  | error e => rw [locateBootPartition, hr] at h; simp at h
  | ok ps =>
    have hmem := locate_ok_mem d ps p hr h
    exact ⟨ps, rfl, List.mem_of_mem_filter hmem, by simpa using List.of_mem_filter hmem⟩

/-- C10 (witness): the spec's concrete scenario. -/
theorem C10_witness :
    ∃ ps, goodDisk.readPartitionsResult = .ok ps ∧ bootEntry ∈ ps ∧ bootEntry.p_type = 12 :=
  C10_result_from_table goodDisk bootEntry (by decide)

end Rune
